import Mathlib

/-!
Verification of the controller-manager reconciliation core.

Shallow embedding of the client-side controller synchronization engine:

* `controllerReducer` embeds the session-state reducer of
  `src/renderer/src/hooks/useControllers.ts`.
* The connection manager (`connect` / reconnect / teardown) of
  `src/renderer/src/hooks/useWebSocket.ts` is embedded as a small
  state machine over explicit socket generations.
* The inbound-message decoder (the `ws.onmessage` handler) is embedded
  over a JSON value type, keeping track of which field accesses the
  handler performs before dispatching.
* The bluetooth-scan projection and the `APPLY_CONFIG` dispatch flow
  are embedded as pure functions on their respective small states.
-/

/-- The `connection_type` field of `types.ts`: usb or bluetooth. -/
inductive ConnectionType where
  | usb
  | bluetooth
deriving DecidableEq

/-- The `Controller` interface of `types.ts`.  Optional fields become
`Option`.  The three `component_*` fields are declared on
`ReadyController` in `types.ts`, but the `CONTROLLER_UNREADY` spread
`{ slot_index: _, ...base }` keeps every remaining runtime property on
the resulting object, so the embedding keeps them on the record shared
by both roles (they are `none` for ordinary connected controllers). -/
structure Controller where
  unique_id : String
  name : String
  custom_name : Option String
  img_src : String
  snd_src : String
  connection_type : ConnectionType
  battery_percent : Option Nat
  vendor_id : Option Nat
  product_id : Option Nat
  paired_but_disconnected : Option Bool
  guid : Option String
  port : Option Nat
  component_unique_ids : Option (List String)
  component_names : Option (List String)
  component_imgs : Option (List String)
deriving DecidableEq

/-- The `ReadyController` interface of `types.ts`: a `Controller` plus
`slot_index`. -/
structure ReadyController where
  ctrl : Controller
  slot_index : Nat
deriving DecidableEq

/-- The `ControllerState` interface of `useControllers.ts`: the session state. -/
structure ControllerState where
  connected : List Controller
  ready : List ReadyController
deriving DecidableEq

/-- The `ControllerAction` union of `types.ts` (with the
`emulatorTarget` payload that `useControllers.ts` reads off
`APPLY_CONFIG`). -/
inductive ControllerAction where
  | SET_STATE (connected : List Controller) (ready : List ReadyController)
  | CONTROLLER_CONNECTED (controller : Controller)
  | CONTROLLER_DISCONNECTED (unique_id : String)
  | CONTROLLER_READY (controller : ReadyController)
  | CONTROLLER_UNREADY (unique_id : String)
  | BATTERY_UPDATE (unique_id : String) (battery_percent : Nat)
  | REASSIGN
  | APPLY_CONFIG (emulatorTarget : Option String)
deriving DecidableEq

/-- The function `controllerReducer` from `useControllers.ts`, case for case.
`REASSIGN` and `APPLY_CONFIG` are intercepted by `dispatch` before the
reducer, and in the reducer they hit the `default` branch returning the
state unchanged. -/
def controllerReducer (state : ControllerState) (action : ControllerAction) :
    ControllerState :=
  match action with
  | .SET_STATE connected ready => { connected := connected, ready := ready }
  | .CONTROLLER_CONNECTED c =>
      if state.connected.any (fun x => x.unique_id == c.unique_id) then
        state
      else
        { state with connected := state.connected ++ [c] }
  | .CONTROLLER_DISCONNECTED id =>
      { connected := state.connected.filter (fun c => c.unique_id != id),
        ready := state.ready.filter (fun c => c.ctrl.unique_id != id) }
  | .CONTROLLER_READY c =>
      let remaining :=
        state.connected.filter (fun x => x.unique_id != c.ctrl.unique_id)
      let alreadyReady :=
        state.ready.any (fun x => x.ctrl.unique_id == c.ctrl.unique_id)
      if alreadyReady then state
      else { connected := remaining, ready := state.ready ++ [c] }
  | .CONTROLLER_UNREADY id =>
      match state.ready.find? (fun c => c.ctrl.unique_id == id) with
      | none => state
      | some removed =>
          { connected := state.connected ++ [removed.ctrl],
            ready := state.ready.filter (fun c => c.ctrl.unique_id != id) }
  | .BATTERY_UPDATE id pct =>
      { connected := state.connected.map (fun c =>
          if c.unique_id == id then { c with battery_percent := some pct }
          else c),
        ready := state.ready.map (fun c =>
          if c.ctrl.unique_id == id then
            { c with ctrl := { c.ctrl with battery_percent := some pct } }
          else c) }
  | .REASSIGN => state
  | .APPLY_CONFIG _ => state

/-- The initial state of the `useReducer` hook: both sets empty. -/
def initialState : ControllerState := { connected := [], ready := [] }

/-- Folding a sequence of events through the reducer. -/
def applyEvents (s : ControllerState) (events : List ControllerAction) :
    ControllerState :=
  events.foldl controllerReducer s

/-- The `unique_id`s of the connected set, in order. -/
def connectedIds (s : ControllerState) : List String :=
  s.connected.map (fun c => c.unique_id)

/-- The `unique_id`s of the ready set, in order. -/
def readyIds (s : ControllerState) : List String :=
  s.ready.map (fun c => c.ctrl.unique_id)

/-- A sample controller for concrete scenarios. -/
def ctrlA : Controller :=
  { unique_id := "A", name := "Pad A", custom_name := none,
    img_src := "a.png", snd_src := "a.wav",
    connection_type := ConnectionType.usb, battery_percent := none,
    vendor_id := none, product_id := none,
    paired_but_disconnected := none, guid := none, port := none,
    component_unique_ids := none, component_names := none,
    component_imgs := none }

/-- Controller `ctrlA` assigned to slot 0. -/
def readyA : ReadyController := { ctrl := ctrlA, slot_index := 0 }

/-- Well-formed session state: duplicate-free ids within each set, and
the two sets id-disjoint. -/
def goodState (s : ControllerState) : Prop :=
  (connectedIds s).Nodup ∧ (readyIds s).Nodup ∧
    ∀ id ∈ connectedIds s, id ∉ readyIds s

/-- Side condition under which a single event preserves `goodState`:
snapshot payloads must themselves be well formed, and a
`controller_connected` id must not currently be ready (the §9 gap). -/
def okEvent (s : ControllerState) : ControllerAction → Prop
  | .SET_STATE connected ready =>
      (connected.map (fun c => c.unique_id)).Nodup ∧
      (ready.map (fun c => c.ctrl.unique_id)).Nodup ∧
      ∀ id ∈ connected.map (fun c => c.unique_id),
        id ∉ ready.map (fun c => c.ctrl.unique_id)
  | .CONTROLLER_CONNECTED c => c.unique_id ∉ readyIds s
  | _ => True

/-- Predicate stating that `okEvent` holds at every step along a trace. -/
def okTrace : ControllerState → List ControllerAction → Prop
  | _, [] => True
  | s, e :: es => okEvent s e ∧ okTrace (controllerReducer s e) es

/-! Connection manager (`useWebSocket.ts`).

The reconnect machinery is embedded as a state machine over explicit
socket generations.  `socks` records every `new WebSocket(WS_URL)`
construction (a connection attempt) together with its current
`readyState`; `wsRef` is `wsRef.current`; `timer` is whether the handle
in `reconnectTimer.current` is still pending; `torn` is a ghost marker
set by the effect cleanup (no handler in the source reads it). -/

/-- A socket's `readyState` as far as the hook consults it. -/
inductive SockState where
  | connecting
  | sockOpen
  | closed
deriving DecidableEq

/-- State of the `useWebSocket` hook's connection machinery. -/
structure WSManager where
  socks : List SockState
  wsRef : Option Nat
  timer : Bool
  torn : Bool
deriving DecidableEq

/-- Whether `wsRef.current?.readyState === WebSocket.OPEN`. -/
def wsRefOpen (m : WSManager) : Bool :=
  match m.wsRef with
  | some i => m.socks.get? i == some SockState.sockOpen
  | none => false

/-- The function `connect` from `useWebSocket.ts`: return early when the referenced
socket is OPEN; otherwise construct a new socket (a new generation) and
store it in `wsRef`. -/
def connectFn (m : WSManager) : WSManager :=
  if wsRefOpen m then m
  else
    { m with socks := m.socks ++ [SockState.connecting],
             wsRef := some m.socks.length }

/-- Delivery of socket `i`'s `open` event: its `onopen` handler only
sets the `connected` flag; the socket's `readyState` becomes OPEN. -/
def openEvt (m : WSManager) (i : Nat) : WSManager :=
  if m.socks.get? i = some SockState.connecting then
    { m with socks := m.socks.set i SockState.sockOpen }
  else m

/-- Delivery of socket `i`'s `close` event (server-side close, an
error-forced `ws.close()`, or the cleanup's `wsRef.current?.close()`).
Its `onclose` handler nulls `wsRef.current` and schedules
`setTimeout(connect, RECONNECT_DELAY)` unconditionally — it does not
consult the cleanup. -/
def closeEvt (m : WSManager) (i : Nat) : WSManager :=
  if m.socks.get? i = some SockState.connecting ∨
      m.socks.get? i = some SockState.sockOpen then
    { m with socks := m.socks.set i SockState.closed,
             wsRef := none, timer := true }
  else m

/-- The reconnect timer firing: `setTimeout`'s callback runs `connect`
once and the handle is spent. -/
def timerFire (m : WSManager) : WSManager :=
  if m.timer then connectFn { m with timer := false } else m

/-- The effect cleanup (`teardown`): `clearTimeout(reconnectTimer.current)`
and `wsRef.current?.close()`.  The close itself surfaces later as that
socket's `close` event (`closeEvt`). -/
def teardown (m : WSManager) : WSManager :=
  { m with timer := false, torn := true }

/-- The initial hook state: no socket yet, no timer. -/
def wsInitial : WSManager :=
  { socks := [], wsRef := none, timer := false, torn := false }

/-- A hook state in mid-establishment: one socket constructed, not yet
OPEN, referenced by `wsRef`. -/
def wsConnecting : WSManager :=
  { socks := [SockState.connecting], wsRef := some 0, timer := false,
    torn := false }

/-! Action dispatcher (the `dispatch` wrapper of `useControllers.ts`). -/

/-- Externally visible effects of the dispatcher, in program order. -/
inductive DispatchEff where
  | reqApplyConfig (emulatorTarget : Option String)
  | reqSuccess
  | reqFailure
  | quitAndLaunch
  | logError
deriving DecidableEq

/-- The `APPLY_CONFIG` branch of `dispatch`:
`api.applyConfig(target).then(() => window.api.quitAndLaunch()).catch(console.error)`,
as the effect trace it produces when the remote request resolves
(`success = true`) or rejects (`success = false`). -/
def dispatchApplyConfig (target : Option String) (success : Bool) :
    List DispatchEff :=
  [DispatchEff.reqApplyConfig target] ++
    (if success then [DispatchEff.reqSuccess, DispatchEff.quitAndLaunch]
     else [DispatchEff.reqFailure, DispatchEff.logError])

/-! Inbound message decoding (`ws.onmessage`).

The handler is embedded over a JSON value type.  `none : Option Json`
stands for the JavaScript `undefined`; the whole handler body runs
inside `try { ... } catch`, so an access that throws is modelled by the
handler producing no dispatch. -/

/-- JSON values as produced by `JSON.parse`. -/
inductive Json where
  | null
  | jbool (b : Bool)
  | jnum (n : Int)
  | jstr (s : String)
  | jarr (elems : List Json)
  | jobj (fields : List (String × Json))

/-- Key lookup in a parsed object's field list. -/
def jsonLookup (fields : List (String × Json)) (k : String) : Option Json :=
  (fields.find? (fun f => f.1 == k)).map (fun f => f.2)

/-- Property access on a defined value: a key on a non-object value is
`undefined` (`none`). -/
def Json.getField : Json → String → Option Json
  | .jobj fields, k => jsonLookup fields k
  | _, _ => none

/-- Property access `o.k` with JavaScript semantics: access on
`undefined` or `null` throws a `TypeError`; on any other non-object
value it yields `undefined`. -/
def jsAccess : Option Json → String → Except Unit (Option Json)
  | none, _ => Except.error ()
  | some Json.null, _ => Except.error ()
  | some (Json.jobj fields), k => Except.ok (jsonLookup fields k)
  | some _, _ => Except.ok none

/-- The action object the handler passes to `dispatch`, with each field
holding the raw (possibly `undefined`) value the handler read off the
message. -/
inductive RawAction where
  | rawSetState (connected ready : Option Json)
  | rawConnected (controller : Option Json)
  | rawDisconnected (unique_id : Option Json)
  | rawReady (controller : Option Json)
  | rawUnready (unique_id : Option Json)
  | rawBattery (unique_id battery_percent : Option Json)

/-- The `ws.onmessage` handler of `useWebSocket.ts` as a function from
the `JSON.parse` result (`none` when parsing threw, caught by the
handler's `try`/`catch`) to the session action it dispatches, if any.
Field accesses that throw inside the `try` are caught, so the message is
dropped; note that `controller_connected` and `controller_ready` pass
`msg.data` to `dispatch` without accessing anything on it (for
`controller_ready` the dispatch precedes `playSound(msg.data.snd_src)`),
so those two dispatch even when `data` is absent.  The three
`bluetooth_*` tags feed the separate scan projection
(`bluetoothStep`), not the session dispatch, and any other tag falls
through the `switch`. -/
def handleMessage (parsed : Option Json) : Option RawAction :=
  match parsed with
  | none => none
  | some m =>
    match m.getField "type" with
    | some (Json.jstr tag) =>
      if tag == "state_snapshot" then
        match jsAccess (m.getField "data") "connected" with
        | Except.error _ => none
        | Except.ok conn =>
          match jsAccess (m.getField "data") "ready" with
          | Except.error _ => none
          | Except.ok rdy => some (RawAction.rawSetState conn rdy)
      else if tag == "controller_connected" then
        some (RawAction.rawConnected (m.getField "data"))
      else if tag == "controller_disconnected" then
        match jsAccess (m.getField "data") "unique_id" with
        | Except.error _ => none
        | Except.ok uid => some (RawAction.rawDisconnected uid)
      else if tag == "controller_ready" then
        some (RawAction.rawReady (m.getField "data"))
      else if tag == "controller_unready" then
        match jsAccess (m.getField "data") "unique_id" with
        | Except.error _ => none
        | Except.ok uid => some (RawAction.rawUnready uid)
      else if tag == "battery_update" then
        match jsAccess (m.getField "data") "unique_id" with
        | Except.error _ => none
        | Except.ok uid =>
          match jsAccess (m.getField "data") "battery_percent" with
          | Except.error _ => none
          | Except.ok pct => some (RawAction.rawBattery uid pct)
      else
        none
    | _ => none

/-! Bluetooth-scan projection (`useWebSocket.ts`). -/

/-- The `BluetoothDevice` interface of `types.ts`. -/
structure BluetoothDevice where
  name : String
  address : String
deriving DecidableEq

/-- The scan projection's state: the `bluetoothDevices` and
`bluetoothScanning` pieces of `useWebSocket` hook state. -/
structure BluetoothScanState where
  bluetoothDevices : List BluetoothDevice
  bluetoothScanning : Bool
deriving DecidableEq

/-- Inputs of the scan projection: the three `bluetooth_*` message
cases, plus the `clearBluetoothDevices` callback the hook hands to the
UI (invoked by `RescanButton.handleScan` before it requests a scan). -/
inductive BluetoothEvent where
  | bluetooth_scan_started
  | bluetooth_device_found (name address : String)
  | bluetooth_scan_complete
  | clearBluetoothDevices
deriving DecidableEq

/-- The scan projection's transition function, from the three
`bluetooth_*` cases of `ws.onmessage` and the `clearBluetoothDevices`
callback. -/
def bluetoothStep (s : BluetoothScanState) :
    BluetoothEvent → BluetoothScanState
  | .bluetooth_scan_started => { s with bluetoothScanning := true }
  | .bluetooth_device_found n a =>
      if s.bluetoothDevices.any (fun d => d.address == a) then s
      else
        { s with bluetoothDevices :=
            s.bluetoothDevices ++ [{ name := n, address := a }] }
  | .bluetooth_scan_complete => { s with bluetoothScanning := false }
  | .clearBluetoothDevices => { s with bluetoothDevices := [] }

example :
    applyEvents initialState
      [ControllerAction.CONTROLLER_CONNECTED ctrlA,
       ControllerAction.CONTROLLER_READY readyA] =
      { connected := [], ready := [readyA] } := by decide

/-! Claims section: List helper lemmas. -/

theorem not_mem_map_filter_ne (l : List α) (f : α → String) (id : String) :
    id ∉ (l.filter (fun c => f c != id)).map f := by
  simp only [List.mem_map, List.mem_filter, bne_iff_ne, ne_eq]
  rintro ⟨c, ⟨-, hne⟩, hc⟩
  exact hne hc

theorem any_beq_eq_false_iff (l : List α) (f : α → String) (id : String) :
    (l.any fun x => f x == id) = false ↔ id ∉ l.map f := by
  simp only [List.any_eq_false, beq_iff_eq, List.mem_map]
  constructor
  · rintro h ⟨x, hx, rfl⟩
    exact h x hx rfl
  · intro h x hx hfx
    exact h ⟨x, hx, hfx⟩

theorem filter_ne_eq_self (l : List α) (f : α → String) (id : String)
    (h : id ∉ l.map f) : l.filter (fun c => f c != id) = l := by
  apply List.filter_eq_self.mpr
  intro a ha
  simp only [bne_iff_ne, ne_eq]
  intro hfa
  exact h (List.mem_map.mpr ⟨a, ha, hfa⟩)

/-! Claims section: C10. -/

/-- C10: `controller_ready{c}` inserts `c` into `ready` even when `c`'s
`unique_id` is not present in `connected` (nor in `ready`): readiness
requires no prior membership in `connected`. -/
theorem ready_without_prior_connected (s : ControllerState)
    (A : ReadyController)
    (_hc : A.ctrl.unique_id ∉ connectedIds s)
    (hr : A.ctrl.unique_id ∉ readyIds s) :
    A ∈ (controllerReducer s (ControllerAction.CONTROLLER_READY A)).ready := by
  have halready :
      (s.ready.any fun x => x.ctrl.unique_id == A.ctrl.unique_id) = false :=
    (any_beq_eq_false_iff s.ready (fun x => x.ctrl.unique_id)
      A.ctrl.unique_id).mpr hr
  simp only [controllerReducer, halready, Bool.false_eq_true, if_false]
  exact List.mem_append_right _ (List.mem_singleton.mpr rfl)

/-- C10 witness: from the empty state, `controller_ready{readyA}` puts
`readyA` into the ready set. -/
theorem ready_without_prior_connected_witness :
    readyA ∈
      (controllerReducer initialState
        (ControllerAction.CONTROLLER_READY readyA)).ready :=
  ready_without_prior_connected initialState readyA
    (by decide) (by decide)

/-! Claims section: C2. -/

/-- C2 counterexample: in the state where `ctrlA` is in `connected` and
`readyA` (same `unique_id`) is in `ready`, applying
`controller_ready{readyA}` leaves `"A"` in `connected` — the reducer
returns the state unchanged because the id is already ready, so the
claim "always yields `A` absent from `connected`, independent of prior
state" is false. -/
theorem ready_not_always_absent_from_connected :
    readyA.ctrl.unique_id ∈
      connectedIds
        (controllerReducer { connected := [ctrlA], ready := [readyA] }
          (ControllerAction.CONTROLLER_READY readyA)) := by
  decide

/-- C2 amended: applying `controller_ready{A}` yields `A`'s `unique_id`
absent from `connected` whenever `A`'s `unique_id` is not already in
`ready`; when it is already in `ready` the state is returned unchanged,
so an id present in both sets stays in `connected`. -/
theorem ready_absent_from_connected_of_not_ready (s : ControllerState)
    (A : ReadyController)
    (hr : A.ctrl.unique_id ∉ readyIds s) :
    A.ctrl.unique_id ∉
      connectedIds
        (controllerReducer s (ControllerAction.CONTROLLER_READY A)) := by
  have halready :
      (s.ready.any fun x => x.ctrl.unique_id == A.ctrl.unique_id) = false :=
    (any_beq_eq_false_iff s.ready (fun x => x.ctrl.unique_id)
      A.ctrl.unique_id).mpr hr
  simp only [controllerReducer, halready, Bool.false_eq_true, if_false,
    connectedIds]
  exact not_mem_map_filter_ne s.connected (fun c => c.unique_id)
    A.ctrl.unique_id

/-- C2 amended witness: with `ctrlA` connected and nothing ready,
`controller_ready{readyA}` removes `"A"` from `connected`. -/
theorem ready_absent_from_connected_of_not_ready_witness :
    readyA.ctrl.unique_id ∉
      connectedIds
        (controllerReducer { connected := [ctrlA], ready := [] }
          (ControllerAction.CONTROLLER_READY readyA)) :=
  ready_absent_from_connected_of_not_ready
    { connected := [ctrlA], ready := [] } readyA (by decide)

/-! Claims section: C1. -/

/-- C1 counterexample: starting from the empty state, the sequence
`controller_ready{readyA}`, `controller_connected{ctrlA}`,
`controller_unready{"A"}` — each event individually well formed —
produces a `connected` list containing the id `"A"` twice, so the
no-duplicate invariant fails. -/
theorem connected_dup_counterexample :
    ¬ (connectedIds
        (applyEvents initialState
          [ControllerAction.CONTROLLER_READY readyA,
           ControllerAction.CONTROLLER_CONNECTED ctrlA,
           ControllerAction.CONTROLLER_UNREADY "A"])).Nodup := by
  decide

theorem nodup_map_filter (l : List α) (f : α → String) (p : α → Bool)
    (h : (l.map f).Nodup) : ((l.filter p).map f).Nodup :=
  List.Nodup.sublist (List.Sublist.map f (List.filter_sublist l)) h

theorem mem_map_filter_ne {l : List α} {f : α → String} {id x : String}
    (h : x ∈ (l.filter (fun c => f c != id)).map f) :
    x ∈ l.map f ∧ x ≠ id := by
  simp only [List.mem_map, List.mem_filter, bne_iff_ne, ne_eq] at h
  obtain ⟨c, ⟨hc, hne⟩, rfl⟩ := h
  exact ⟨List.mem_map.mpr ⟨c, hc, rfl⟩, hne⟩

theorem mem_map_filter_mono {l : List α} {f : α → String} {p : α → Bool}
    {x : String} (h : x ∈ (l.filter p).map f) : x ∈ l.map f :=
  List.Sublist.subset (List.Sublist.map f (List.filter_sublist l)) h

theorem nodup_append_singleton {l : List String} {a : String}
    (h : l.Nodup) (ha : a ∉ l) : (l ++ [a]).Nodup := by
  rw [List.nodup_append]
  refine ⟨h, List.nodup_singleton a, ?_⟩
  intro x hx hxa
  rw [List.mem_singleton] at hxa
  exact ha (hxa ▸ hx)

theorem battery_connectedIds (s : ControllerState) (id : String) (p : Nat) :
    connectedIds
        (controllerReducer s (ControllerAction.BATTERY_UPDATE id p)) =
      connectedIds s := by
  simp only [controllerReducer, connectedIds, List.map_map]
  apply List.map_congr_left
  intro c _
  by_cases h : c.unique_id = id <;> simp [h]

theorem battery_readyIds (s : ControllerState) (id : String) (p : Nat) :
    readyIds (controllerReducer s (ControllerAction.BATTERY_UPDATE id p)) =
      readyIds s := by
  simp only [controllerReducer, readyIds, List.map_map]
  apply List.map_congr_left
  intro c _
  by_cases h : c.ctrl.unique_id = id <;> simp [h]

theorem goodState_step (s : ControllerState) (e : ControllerAction)
    (hs : goodState s) (he : okEvent s e) :
    goodState (controllerReducer s e) := by
  obtain ⟨hcn, hrn, hdisj⟩ := hs
  cases e with
  | SET_STATE connected ready =>
      exact he
  | CONTROLLER_CONNECTED c =>
      by_cases hany :
          (s.connected.any fun x => x.unique_id == c.unique_id) = true
      · simp only [controllerReducer, hany, if_true]
        exact ⟨hcn, hrn, hdisj⟩
      · have hany' :
            (s.connected.any fun x => x.unique_id == c.unique_id) = false :=
          Bool.eq_false_iff.mpr hany
        have hnotin : c.unique_id ∉ connectedIds s :=
          (any_beq_eq_false_iff s.connected (fun x => x.unique_id)
            c.unique_id).mp hany'
        simp only [controllerReducer, hany', Bool.false_eq_true, if_false]
        refine ⟨?_, hrn, ?_⟩
        · simpa only [connectedIds, List.map_append, List.map_cons,
            List.map_nil] using nodup_append_singleton hcn hnotin
        · intro x hx
          simp only [connectedIds, List.map_append, List.map_cons,
            List.map_nil, List.mem_append, List.mem_singleton] at hx
          rcases hx with hx | rfl
          · exact hdisj x hx
          · exact he
  | CONTROLLER_DISCONNECTED id =>
      refine ⟨nodup_map_filter _ _ _ hcn, nodup_map_filter _ _ _ hrn, ?_⟩
      intro x hx hx'
      exact hdisj x (mem_map_filter_mono hx) (mem_map_filter_mono hx')
  | CONTROLLER_READY c =>
      by_cases hany :
          (s.ready.any fun x => x.ctrl.unique_id == c.ctrl.unique_id) = true
      · simp only [controllerReducer, hany, if_true]
        exact ⟨hcn, hrn, hdisj⟩
      · have hany' :
            (s.ready.any fun x => x.ctrl.unique_id == c.ctrl.unique_id) =
              false :=
          Bool.eq_false_iff.mpr hany
        have hnotin : c.ctrl.unique_id ∉ readyIds s :=
          (any_beq_eq_false_iff s.ready (fun x => x.ctrl.unique_id)
            c.ctrl.unique_id).mp hany'
        simp only [controllerReducer, hany', Bool.false_eq_true, if_false]
        refine ⟨nodup_map_filter _ _ _ hcn, ?_, ?_⟩
        · simpa only [readyIds, List.map_append, List.map_cons,
            List.map_nil] using nodup_append_singleton hrn hnotin
        · intro x hx
          obtain ⟨hxmem, hxne⟩ := mem_map_filter_ne hx
          simp only [readyIds, List.map_append, List.map_cons, List.map_nil,
            List.mem_append, List.mem_singleton]
          rintro (hx' | rfl)
          · exact hdisj x hxmem hx'
          · exact hxne rfl
  | CONTROLLER_UNREADY id =>
      cases hfind : s.ready.find? (fun c => c.ctrl.unique_id == id) with
      | none =>
          simp only [controllerReducer, hfind]
          exact ⟨hcn, hrn, hdisj⟩
      | some removed =>
          have hrm : removed ∈ s.ready := List.mem_of_find?_eq_some hfind
          have hp := List.find?_some hfind
          have hid : removed.ctrl.unique_id = id := by
            simpa only [beq_iff_eq] using hp
          have hidready : id ∈ readyIds s :=
            hid ▸ List.mem_map.mpr ⟨removed, hrm, rfl⟩
          have hidconn : id ∉ connectedIds s := fun hmem =>
            hdisj id hmem hidready
          simp only [controllerReducer, hfind]
          refine ⟨?_, nodup_map_filter _ _ _ hrn, ?_⟩
          · simpa only [connectedIds, List.map_append, List.map_cons,
              List.map_nil, hid] using
              nodup_append_singleton hcn hidconn
          · intro x hx
            simp only [connectedIds, List.map_append, List.map_cons,
              List.map_nil, List.mem_append, List.mem_singleton, hid] at hx
            rcases hx with hx | rfl
            · intro hx'
              exact hdisj x hx (mem_map_filter_mono hx')
            · exact fun hx' => (mem_map_filter_ne hx').2 rfl
  | BATTERY_UPDATE id p =>
      rw [goodState, battery_connectedIds, battery_readyIds]
      exact ⟨hcn, hrn, hdisj⟩
  | REASSIGN =>
      exact ⟨hcn, hrn, hdisj⟩
  | APPLY_CONFIG t =>
      exact ⟨hcn, hrn, hdisj⟩

theorem goodState_applyEvents (es : List ControllerAction)
    (s : ControllerState) (hs : goodState s) (ht : okTrace s es) :
    goodState (applyEvents s es) := by
  induction es generalizing s with
  | nil => exact hs
  | cons e es ih =>
      exact ih (controllerReducer s e) (goodState_step s e hs ht.1) ht.2

/-- C1 amended: starting from the empty state, along any event trace in
which every `state_snapshot` payload is itself well formed (duplicate
free and cross-set disjoint) and no `controller_connected` event carries
a `unique_id` currently in `ready`, the state after every step has
duplicate-free `unique_id`s within `connected` and within `ready` (and
the two sets stay disjoint).  Without these provisos the invariant
fails: see `connected_dup_counterexample`. -/
theorem nodup_ids_of_okTrace (es : List ControllerAction)
    (ht : okTrace initialState es) :
    (connectedIds (applyEvents initialState es)).Nodup ∧
      (readyIds (applyEvents initialState es)).Nodup ∧
      ∀ id ∈ connectedIds (applyEvents initialState es),
        id ∉ readyIds (applyEvents initialState es) :=
  goodState_applyEvents es initialState
    ⟨List.nodup_nil, List.nodup_nil, by intro id h; cases h⟩ ht

/-- C1 amended witness: the two-event trace connect-then-ready for
`ctrlA` satisfies the side conditions, and its final state has
duplicate-free ids. -/
theorem nodup_ids_of_okTrace_witness :
    (connectedIds
        (applyEvents initialState
          [ControllerAction.CONTROLLER_CONNECTED ctrlA,
           ControllerAction.CONTROLLER_READY readyA])).Nodup :=
  (nodup_ids_of_okTrace
    [ControllerAction.CONTROLLER_CONNECTED ctrlA,
     ControllerAction.CONTROLLER_READY readyA]
    ⟨show ctrlA.unique_id ∉ readyIds initialState by decide,
     trivial, trivial⟩).1

/-! Claims section: C5. -/

theorem find?_append_right {p : α → Bool} {l1 l2 : List α}
    (h : ∀ x ∈ l1, p x = false) :
    (l1 ++ l2).find? p = l2.find? p := by
  induction l1 with
  | nil => rfl
  | cons a l ih =>
      rw [List.cons_append, List.find?_cons,
        h a (List.mem_cons_self a l)]
      exact ih fun x hx => h x (List.mem_cons_of_mem a hx)

/-- C5: the reducer is idempotent for every event kind: applying the
identical event twice produces the same state as applying it once, for
every state and every action (the six session-event kinds; the
`default`-branch actions trivially so). -/
theorem controllerReducer_idempotent (s : ControllerState)
    (e : ControllerAction) :
    controllerReducer (controllerReducer s e) e = controllerReducer s e := by
  cases e with
  | SET_STATE connected ready => rfl
  | CONTROLLER_CONNECTED c =>
      by_cases hany :
          (s.connected.any fun x => x.unique_id == c.unique_id) = true
      · have h1 :
            controllerReducer s (ControllerAction.CONTROLLER_CONNECTED c) =
              s := by
          simp [controllerReducer, hany]
        rw [h1]
        exact h1
      · have hany' :
            (s.connected.any fun x => x.unique_id == c.unique_id) = false :=
          Bool.eq_false_iff.mpr hany
        have h1 :
            controllerReducer s (ControllerAction.CONTROLLER_CONNECTED c) =
              { s with connected := s.connected ++ [c] } := by
          simp [controllerReducer, hany']
        rw [h1]
        simp [controllerReducer, List.any_append]
  | CONTROLLER_DISCONNECTED id =>
      simp [controllerReducer, List.filter_filter]
  | CONTROLLER_READY c =>
      by_cases hany :
          (s.ready.any fun x => x.ctrl.unique_id == c.ctrl.unique_id) = true
      · have h1 :
            controllerReducer s (ControllerAction.CONTROLLER_READY c) = s := by
          simp [controllerReducer, hany]
        rw [h1]
        exact h1
      · have hany' :
            (s.ready.any fun x => x.ctrl.unique_id == c.ctrl.unique_id) =
              false :=
          Bool.eq_false_iff.mpr hany
        have h1 :
            controllerReducer s (ControllerAction.CONTROLLER_READY c) =
              { connected :=
                  s.connected.filter
                    (fun x => x.unique_id != c.ctrl.unique_id),
                ready := s.ready ++ [c] } := by
          simp [controllerReducer, hany']
        rw [h1]
        simp [controllerReducer, List.any_append]
  | CONTROLLER_UNREADY id =>
      cases hfind : s.ready.find? (fun c => c.ctrl.unique_id == id) with
      | none =>
          have h1 :
              controllerReducer s (ControllerAction.CONTROLLER_UNREADY id) =
                s := by
            simp [controllerReducer, hfind]
          rw [h1]
          exact h1
      | some removed =>
          have h1 :
              controllerReducer s (ControllerAction.CONTROLLER_UNREADY id) =
                { connected := s.connected ++ [removed.ctrl],
                  ready :=
                    s.ready.filter (fun c => c.ctrl.unique_id != id) } := by
            simp [controllerReducer, hfind]
          rw [h1]
          have hnone :
              ((s.ready.filter (fun c => c.ctrl.unique_id != id)).find?
                  (fun c => c.ctrl.unique_id == id)) = none := by
            apply List.find?_eq_none.mpr
            intro x hx
            have hxf := (List.mem_filter.mp hx).2
            simp only [bne_iff_ne, ne_eq] at hxf
            simp [hxf]
          simp [controllerReducer, hnone]
  | BATTERY_UPDATE id p =>
      simp only [controllerReducer, List.map_map, ControllerState.mk.injEq]
      constructor
      · apply List.map_congr_left
        intro c _
        by_cases h : c.unique_id = id <;> simp [h, Function.comp]
      · apply List.map_congr_left
        intro c _
        by_cases h : c.ctrl.unique_id = id <;> simp [h, Function.comp]
  | REASSIGN => rfl
  | APPLY_CONFIG t => rfl

/-! Claims section: C6. -/

/-- C6: from any state in which `A`'s `unique_id` is in neither set,
`controller_ready{A}` (in particular with `slot_index` 0) followed by
`controller_unready{A.unique_id}` puts `A`'s controller record — every
field of `A` except the removed `slot_index` — at the end of
`connected` and restores `ready`. -/
theorem ready_unready_round_trip (s : ControllerState) (A : ReadyController)
    (hc : A.ctrl.unique_id ∉ connectedIds s)
    (hr : A.ctrl.unique_id ∉ readyIds s) :
    applyEvents s
        [ControllerAction.CONTROLLER_READY A,
         ControllerAction.CONTROLLER_UNREADY A.ctrl.unique_id] =
      { connected := s.connected ++ [A.ctrl], ready := s.ready } ∧
    A.ctrl ∈
      (applyEvents s
        [ControllerAction.CONTROLLER_READY A,
         ControllerAction.CONTROLLER_UNREADY A.ctrl.unique_id]).connected := by
  have hany' :
      (s.ready.any fun x => x.ctrl.unique_id == A.ctrl.unique_id) = false :=
    (any_beq_eq_false_iff s.ready (fun x => x.ctrl.unique_id)
      A.ctrl.unique_id).mpr hr
  have h1 :
      controllerReducer s (ControllerAction.CONTROLLER_READY A) =
        { connected := s.connected, ready := s.ready ++ [A] } := by
    simp only [controllerReducer, hany', Bool.false_eq_true, if_false]
    rw [filter_ne_eq_self s.connected (fun c => c.unique_id)
      A.ctrl.unique_id hc]
  have hfind :
      ((s.ready ++ [A]).find?
          (fun c => c.ctrl.unique_id == A.ctrl.unique_id)) = some A := by
    rw [find?_append_right]
    · simp [List.find?]
    · intro x hx
      rw [beq_eq_false_iff_ne, ne_eq]
      intro hxA
      exact hr (List.mem_map.mpr ⟨x, hx, hxA⟩)
  have hfilter :
      ((s.ready ++ [A]).filter
          (fun c => c.ctrl.unique_id != A.ctrl.unique_id)) = s.ready := by
    rw [List.filter_append,
      filter_ne_eq_self s.ready (fun c => c.ctrl.unique_id)
        A.ctrl.unique_id hr]
    simp
  have h2 :
      applyEvents s
          [ControllerAction.CONTROLLER_READY A,
           ControllerAction.CONTROLLER_UNREADY A.ctrl.unique_id] =
        { connected := s.connected ++ [A.ctrl], ready := s.ready } := by
    show controllerReducer
        (controllerReducer s (ControllerAction.CONTROLLER_READY A))
        (ControllerAction.CONTROLLER_UNREADY A.ctrl.unique_id) = _
    rw [h1]
    simp only [controllerReducer, hfind, hfilter]
  exact ⟨h2, by
    rw [h2]
    exact List.mem_append_right _ (List.mem_singleton.mpr rfl)⟩

/-- C6 witness: from the empty state, readying then unreadying `readyA`
leaves exactly its controller record in `connected`. -/
theorem ready_unready_round_trip_witness :
    applyEvents initialState
        [ControllerAction.CONTROLLER_READY readyA,
         ControllerAction.CONTROLLER_UNREADY readyA.ctrl.unique_id] =
      { connected := [ctrlA], ready := [] } :=
  (ready_unready_round_trip initialState readyA
    (by decide) (by decide)).1

/-! Claims section: C3. -/

/-- C3: the claim fails on the code.  Trace: `connect`; the socket
opens; the cleanup runs (timer cleared, one socket ever constructed,
`wsRef.current?.close()` issued); the torn-down socket's `close` event
is then delivered, whose handler schedules a fresh reconnect timer;
that timer fires and constructs a second socket.  A reconnect attempt
therefore occurs after teardown, arising from the close event of the
connection being torn down. -/
theorem reconnect_after_teardown :
    (teardown (openEvt (connectFn wsInitial) 0)).torn = true ∧
    (teardown (openEvt (connectFn wsInitial) 0)).timer = false ∧
    (teardown (openEvt (connectFn wsInitial) 0)).socks.length = 1 ∧
    (closeEvt (teardown (openEvt (connectFn wsInitial) 0)) 0).timer = true ∧
    (timerFire
        (closeEvt (teardown (openEvt (connectFn wsInitial) 0)) 0)
      ).socks.length = 2 := by
  decide

/-! Claims section: C4. -/

/-- C4 counterexample: calling `connect` while a connection is still
being established (one socket in `CONNECTING`, held by `wsRef`)
constructs a second socket, so the call is not a no-op. -/
theorem connect_during_connecting_creates_second :
    (connectFn wsConnecting).socks.length = 2 ∧
      connectFn wsConnecting ≠ wsConnecting := by
  decide

/-- C4 amended: `connect()` is a no-op when the referenced connection is
already OPEN; called while a connection is still being established
(`CONNECTING`) it constructs a second socket
(`connect_during_connecting_creates_second`). -/
theorem connect_noop_of_open (m : WSManager) (h : wsRefOpen m = true) :
    connectFn m = m := by
  simp [connectFn, h]

/-- C4 amended witness: with an OPEN socket in `wsRef`, `connect` leaves
the state unchanged. -/
theorem connect_noop_of_open_witness :
    connectFn
        { socks := [SockState.sockOpen], wsRef := some 0, timer := false,
          torn := false } =
      { socks := [SockState.sockOpen], wsRef := some 0, timer := false,
        torn := false } :=
  connect_noop_of_open _ (by decide)

/-! Claims section: C7. -/

/-- C7: for every `APPLY_CONFIG` dispatch, the relaunch capability
(`window.api.quitAndLaunch`) is invoked exactly once when the
configuration-apply request resolves and zero times when it rejects,
and every invocation is preceded by the request's success
acknowledgement. -/
theorem applyConfig_relaunch (t : Option String) (o : Bool) :
    ((dispatchApplyConfig t o).count DispatchEff.quitAndLaunch =
      if o then 1 else 0) ∧
    ∀ pre post,
      dispatchApplyConfig t o =
        pre ++ DispatchEff.quitAndLaunch :: post →
      DispatchEff.reqSuccess ∈ pre := by
  cases o with
  | false =>
      refine ⟨by simp [dispatchApplyConfig], ?_⟩
      intro pre post h
      have hq : DispatchEff.quitAndLaunch ∈ dispatchApplyConfig t false := by
        rw [h]
        exact List.mem_append_right _ (List.mem_cons_self _ _)
      simp [dispatchApplyConfig] at hq
  | true =>
      refine ⟨by simp [dispatchApplyConfig], ?_⟩
      intro pre post h
      simp only [dispatchApplyConfig, if_true, List.singleton_append] at h
      match pre, h with
      | [], h => simp at h
      | [x], h =>
          rw [List.cons_append, List.nil_append] at h
          have h2 := (List.cons.injEq _ _ _ _).mp h
          have h3 := (List.cons.injEq _ _ _ _).mp h2.2
          exact absurd h3.1 (by simp)
      | x :: y :: rest, h =>
          rw [List.cons_append, List.cons_append] at h
          have h2 := (List.cons.injEq _ _ _ _).mp h
          have h3 := (List.cons.injEq _ _ _ _).mp h2.2
          rw [← h3.1]
          exact List.mem_cons_of_mem _ (List.mem_cons_self _ _)

/-- C7 witness: with no target and a successful request, the relaunch
capability is invoked exactly once. -/
theorem applyConfig_relaunch_witness :
    (dispatchApplyConfig none true).count DispatchEff.quitAndLaunch = 1 := by
  have h := (applyConfig_relaunch none true).1
  simpa using h

/-! Claims section: C8. -/

/-- C8 counterexample: the message `{"type":"controller_connected"}` —
valid JSON, recognized tag, missing the required `data` field — is not
discarded: the handler dispatches a `CONTROLLER_CONNECTED` action whose
`controller` payload is `undefined` (which the reducer then
dereferences). -/
theorem missing_data_dispatched :
    handleMessage
        (some (Json.jobj [("type", Json.jstr "controller_connected")])) =
      some (RawAction.rawConnected none) ∧
    handleMessage
        (some (Json.jobj [("type", Json.jstr "controller_connected")])) ≠
      none := by
  refine ⟨rfl, ?_⟩
  intro h
  rw [show handleMessage
      (some (Json.jobj [("type", Json.jstr "controller_connected")])) =
    some (RawAction.rawConnected none) from rfl] at h
  exact Option.noConfusion h

/-- C8 amended: messages that fail to parse are silently discarded, as
are messages whose `type` is missing, not a string, or not a recognized
tag; a recognized tag whose `data` payload is missing is discarded only
for the cases that dereference `data` inside the handler
(`state_snapshot`, `controller_disconnected`, `controller_unready`,
`battery_update`) — `controller_connected` and `controller_ready`
dispatch the missing payload to the reducer
(`missing_data_dispatched`); the typed reducer never fails and no-ops
on missing targets. -/
theorem malformed_message_handling :
    (handleMessage none = none) ∧
    (∀ m : Json,
      (∀ tag : String, m.getField "type" ≠ some (Json.jstr tag)) →
      handleMessage (some m) = none) ∧
    (∀ (m : Json) (tag : String),
      m.getField "type" = some (Json.jstr tag) →
      tag ∉ ["state_snapshot", "controller_connected",
        "controller_disconnected", "controller_ready",
        "controller_unready", "battery_update", "bluetooth_scan_started",
        "bluetooth_device_found", "bluetooth_scan_complete"] →
      handleMessage (some m) = none) ∧
    (∀ (m : Json) (tag : String),
      m.getField "type" = some (Json.jstr tag) →
      tag ∈ ["state_snapshot", "controller_disconnected",
        "controller_unready", "battery_update"] →
      m.getField "data" = none →
      handleMessage (some m) = none) ∧
    (∀ (s : ControllerState) (id : String), id ∉ readyIds s →
      controllerReducer s (ControllerAction.CONTROLLER_UNREADY id) = s) ∧
    (∀ (s : ControllerState) (id : String) (p : Nat),
      id ∉ connectedIds s → id ∉ readyIds s →
      controllerReducer s (ControllerAction.BATTERY_UPDATE id p) = s) := by
  refine ⟨rfl, ?_, ?_, ?_, ?_, ?_⟩
  · intro m h
    cases hty : m.getField "type" with
    | none => simp [handleMessage, hty]
    | some v =>
        cases v with
        | jstr tag => exact absurd hty (h tag)
        | null => simp [handleMessage, hty]
        | jbool b => simp [handleMessage, hty]
        | jnum n => simp [handleMessage, hty]
        | jarr elems => simp [handleMessage, hty]
        | jobj fields => simp [handleMessage, hty]
  · intro m tag hty hmem
    simp only [List.mem_cons, List.not_mem_nil, or_false, not_or] at hmem
    obtain ⟨h1, h2, h3, h4, h5, h6, -, -, -⟩ := hmem
    simp [handleMessage, hty, h1, h2, h3, h4, h5, h6]
  · intro m tag hty hmem hdata
    simp only [List.mem_cons, List.not_mem_nil, or_false] at hmem
    rcases hmem with rfl | rfl | rfl | rfl <;>
      simp [handleMessage, hty, hdata, jsAccess]
  · intro s id hid
    have hfind :
        (s.ready.find? fun c => c.ctrl.unique_id == id) = none := by
      apply List.find?_eq_none.mpr
      intro x hx
      simp only [beq_iff_eq]
      intro hxid
      exact hid (List.mem_map.mpr ⟨x, hx, hxid⟩)
    simp [controllerReducer, hfind]
  · intro s id p hidc hidr
    have hc :
        (s.connected.map fun c =>
          if c.unique_id == id then { c with battery_percent := some p }
          else c) = s.connected := by
      conv_rhs => rw [← List.map_id s.connected]
      apply List.map_congr_left
      intro c hcm
      have hne : c.unique_id ≠ id := fun h =>
        hidc (List.mem_map.mpr ⟨c, hcm, h⟩)
      simp [hne]
    have hr :
        (s.ready.map fun c =>
          if c.ctrl.unique_id == id then
            { c with ctrl := { c.ctrl with battery_percent := some p } }
          else c) = s.ready := by
      conv_rhs => rw [← List.map_id s.ready]
      apply List.map_congr_left
      intro c hcm
      have hne : c.ctrl.unique_id ≠ id := fun h =>
        hidr (List.mem_map.mpr ⟨c, hcm, h⟩)
      simp [hne]
    cases s with
    | mk conn rdy =>
        simp only [controllerReducer]
        simp only at hc hr
        rw [hc, hr]

/-- C8 amended witness: `{"type":"controller_disconnected"}` with no
`data` field is discarded (the handler's `msg.data.unique_id` access
throws inside the `try` and is caught), and an unready for an id not in
`ready` is a no-op on the empty state. -/
theorem malformed_message_handling_witness :
    handleMessage
        (some (Json.jobj [("type", Json.jstr "controller_disconnected")])) =
      none ∧
    controllerReducer initialState
        (ControllerAction.CONTROLLER_UNREADY "Z") = initialState := by
  constructor
  · exact malformed_message_handling.2.2.2.1
      (Json.jobj [("type", Json.jstr "controller_disconnected")])
      "controller_disconnected" rfl (by simp) rfl
  · exact malformed_message_handling.2.2.2.2.1 initialState "Z" (by decide)

/-! Claims section: C9. -/

/-- C9 counterexample: with one device already found,
`bluetooth_scan_started` only sets the scanning flag — the found-device
list is not reset. -/
theorem scan_started_does_not_clear :
    (bluetoothStep
        { bluetoothDevices := [{ name := "X", address := "aa" }],
          bluetoothScanning := false }
        BluetoothEvent.bluetooth_scan_started).bluetoothDevices ≠ [] := by
  decide

/-- C9 amended: the found-devices list is deduplicated by address (a
`bluetooth_device_found` for an address already present leaves the
state unchanged); `bluetooth_scan_started` only sets the scanning flag
and leaves the list unchanged; the list is emptied only by the explicit
`clearBluetoothDevices` callback, which the UI invokes when the user
initiates a scan. -/
theorem bluetooth_dedup_and_clear (s : BluetoothScanState) (n a : String)
    (h : (s.bluetoothDevices.any fun d => d.address == a) = true) :
    bluetoothStep s (BluetoothEvent.bluetooth_device_found n a) = s ∧
    (bluetoothStep s BluetoothEvent.bluetooth_scan_started).bluetoothDevices =
      s.bluetoothDevices ∧
    (bluetoothStep s BluetoothEvent.clearBluetoothDevices).bluetoothDevices =
      [] := by
  refine ⟨?_, rfl, rfl⟩
  simp [bluetoothStep, h]

/-- C9 amended witness: a repeated find for address `"aa"` leaves the
state unchanged. -/
theorem bluetooth_dedup_and_clear_witness :
    bluetoothStep
        { bluetoothDevices := [{ name := "X", address := "aa" }],
          bluetoothScanning := true }
        (BluetoothEvent.bluetooth_device_found "Y" "aa") =
      { bluetoothDevices := [{ name := "X", address := "aa" }],
        bluetoothScanning := true } :=
  (bluetooth_dedup_and_clear
    { bluetoothDevices := [{ name := "X", address := "aa" }],
      bluetoothScanning := true } "Y" "aa" (by decide)).1
